import Mathlib

/-!
Shallow embedding of the real-time chat subsystem of the trip-planner
repository: the chat data model (`backend/chat/models.py`), the WebSocket
consumer (`backend/chat/consumers.py`) and the JWT handshake middleware
(`backend/chat/middleware.py`).

Conventions of the embedding:
* UUIDs, user ids and trip ids are `Nat`.
* A `ChatRoom` is keyed one-to-one by its trip (`ChatRoom.trip` is a
  `OneToOneField`), so a room is identified by its trip id; the store keeps
  the list of trip ids that have a room.
* Timestamps are `Nat` (the subsystem only needs a sortable total order).
* The database is a `Store`: lists of rows in insertion order.
* Django's `Model.save` / `full_clean` / `objects.create` are embedded as
  explicit functions; `auto_now_add` sets `created_at` only on insert,
  `auto_now` sets `updated_at` on every save.
* The `id` primary key of `ChatMessage` is declared with
  `default=uuid.uuid4`, which Django applies when the object is
  instantiated, before the first save; the embedding mirrors this: the
  constructor already fills `pk` with the fresh uuid.
* Python's `str.strip()` is embedded as `pyStrip` (drop whitespace from
  both ends), and the SQL `ORDER BY created_at DESC` as a stable insertion
  sort on the key `created_at` alone — the query requests no id tiebreak,
  so ties keep the storage (insertion) order.
-/

/-- Python `str.strip()`: remove whitespace characters from both ends of a
string. -/
def pyStrip (s : String) : String :=
  String.mk ((s.data.dropWhile Char.isWhitespace).rdropWhile Char.isWhitespace)

/-- User row of `users.User`: uuid primary key, email used for login, an
optional username, and a display name (`get_full_name`, delegated to the
profile in the source). -/
structure ChatUser where
  id : Nat
  email : String
  username : String
  fullName : String
deriving DecidableEq, Repr

/-- Row of `chat.ChatMessage`.  `pk` is the `id` UUID field: because it has
`default=uuid.uuid4`, it is filled in when the object is instantiated (so it
is already set on the very first `save`).  `replyTo` stores the foreign-key
id of the replied-to message (`null=True`). -/
structure ChatMsg where
  pk : Option Nat
  chatRoom : Nat
  sender : Nat
  content : String
  messageType : String
  replyTo : Option Nat
  isEdited : Bool
  createdAt : Nat
  updatedAt : Nat
deriving DecidableEq, Repr

/-- Persistent state: trips, trip collaborators `(trip, user)`, chat rooms
(keyed by trip id, one-to-one), chat messages in insertion order, and
users. -/
structure Store where
  trips : List Nat
  collaborators : List (Nat × Nat)
  rooms : List Nat
  msgs : List ChatMsg
  users : List ChatUser
deriving DecidableEq, Repr

/-- Embedding of `ChatMessage.clean`: model-level validation.  Rejects
content that is empty after stripping, and a `reply_to` whose chat room
differs from the message's chat room.  The source's `reply_to` attribute is
a foreign object; the embedding dereferences the stored id against the
table. -/
def ChatMessage_clean (db : List ChatMsg) (m : ChatMsg) : Except String Unit :=
  if pyStrip m.content = "" then
    .error "Message content cannot be empty."
  else
    match m.replyTo with
    | none => .ok ()
    | some rid =>
      match db.find? (fun r => r.pk == some rid) with
      | none => .ok ()
      | some tgt =>
        if tgt.chatRoom ≠ m.chatRoom then
          .error "Reply must be to a message in the same chat room."
        else .ok ()

/-- Choices declared for the `message_type` field
(`MESSAGE_TYPE_CHOICES`). -/
def MESSAGE_TYPE_CHOICES : List String := ["text", "system", "file"]

/-- Embedding of the field validation `full_clean` runs first
(`clean_fields`) for the fields with declared constraints: `content` is a
`TextField` with `blank=False`, so the empty string is rejected, and
`message_type` is a `CharField(max_length=20, choices=MESSAGE_TYPE_CHOICES)`,
so a value outside the choices or longer than 20 characters is rejected. -/
def ChatMessage_clean_fields (m : ChatMsg) : Except String Unit :=
  if m.content = "" then
    .error "This field cannot be blank."
  else if MESSAGE_TYPE_CHOICES.contains m.messageType = false then
    .error "Value is not a valid choice."
  else if m.messageType.length > 20 then
    .error "Ensure this value has at most 20 characters."
  else .ok ()

/-- Embedding of `full_clean`: run the per-field validation
(`clean_fields`), then the model-level `clean`; any failure is a
`ValidationError`. -/
def ChatMessage_full_clean (db : List ChatMsg) (m : ChatMsg) : Except String Unit :=
  match ChatMessage_clean_fields m with
  | .error e => .error e
  | .ok _ => ChatMessage_clean db m

/-- Embedding of `ChatMessage.save`: the override first sets `is_edited`
when `self.pk` is set (meant to detect updates, but the uuid pk default
means `pk` is set on creation too), then runs `full_clean` (field
validation, then `clean`), then the base save.  The base save updates the row with this pk when one exists, else
inserts; `auto_now_add` fills `created_at` only on insert, `auto_now` bumps
`updated_at` on every save.  Returns the new table and the saved row. -/
def ChatMessage_save (db : List ChatMsg) (m : ChatMsg) (now : Nat) :
    Except String (List ChatMsg × ChatMsg) :=
  let m := if m.pk.isSome then { m with isEdited := true } else m
  match ChatMessage_full_clean db m with
  | .error e => .error e
  | .ok _ =>
    if db.any (fun r => r.pk == m.pk) then
      let m := { m with updatedAt := now }
      .ok (db.map (fun r => if r.pk == m.pk then m else r), m)
    else
      let m := { m with createdAt := now, updatedAt := now }
      .ok (db ++ [m], m)

/-- Embedding of `ChatMessage.objects.create(...)`: instantiate the model
(field defaults applied: the pk gets the fresh uuid `freshId`, `is_edited`
defaults to false) and save it. -/
def ChatMessage_objects_create (db : List ChatMsg) (freshId now : Nat)
    (chatRoom sender : Nat) (content messageType : String)
    (replyTo : Option Nat) : Except String (List ChatMsg × ChatMsg) :=
  ChatMessage_save db
    { pk := some freshId, chatRoom := chatRoom, sender := sender,
      content := content, messageType := messageType, replyTo := replyTo,
      isEdited := false, createdAt := 0, updatedAt := 0 } now

/-- Context of one WebSocket connection: the trip id from the URL route,
the authenticated user (`self.user`), and the unique channel name the
channel layer assigns to this socket (`self.channel_name`). -/
structure Conn where
  tripId : Nat
  userId : Nat
  userEmail : String
  channelName : String
deriving DecidableEq, Repr

/-- Serialized sender block of `serialize_message`. -/
structure SerSender where
  id : Nat
  email : String
  username : String
  fullName : String
deriving DecidableEq, Repr

/-- Serialized `reply_to` block of `serialize_message` (content truncated
to its first 100 characters). -/
structure SerReply where
  id : Nat
  content : String
  senderEmail : String
deriving DecidableEq, Repr

/-- Wire shape of one message, as produced by `serialize_message`. -/
structure SerMsg where
  id : Nat
  chatRoomId : Nat
  sender : SerSender
  content : String
  messageType : String
  replyTo : Option SerReply
  isEdited : Bool
  createdAt : Nat
  updatedAt : Nat
deriving DecidableEq, Repr

/-- Frames the server writes to its own client (`self.send`). -/
inductive OutFrame where
  | messageHistory (msgs : List SerMsg)
  | chatMessage (msg : SerMsg)
  | messageEdited (msg : SerMsg)
  | typing (userId : Nat) (userEmail : String) (isTyping : Bool)
  | error (message : String)
deriving DecidableEq, Repr

/-- Events published on the channel layer with `group_send`; the `type` key
of the event dict selects the consumer handler method on delivery. -/
inductive Event where
  | chatMessage (msg : SerMsg)
  | messageEdited (msg : SerMsg)
  | typingIndicator (userId : Nat) (userEmail : String) (isTyping : Bool)
deriving DecidableEq, Repr

/-- Observable actions of one handler run: a frame sent to the handler's
own client, an event published to the room group, or a close of the
socket. -/
inductive GwAction where
  | send (f : OutFrame)
  | publish (e : Event)
  | close (code : Nat)
deriving DecidableEq, Repr

/-- Placeholder user for a dangling sender foreign key (cannot occur
through the ORM's referential integrity; present only to keep lookups
total). -/
def noUser : ChatUser := { id := 0, email := "", username := "", fullName := "" }

/-- Embedding of `serialize_message`: the JSON shape of a message.
`username` falls back to the email when the username is empty
(`message.sender.username or message.sender.email`); the `reply_to` block
dereferences the foreign key and truncates the quoted content to 100
characters. -/
def serialize_message (st : Store) (m : ChatMsg) : SerMsg :=
  let sender := (st.users.find? (fun u => u.id == m.sender)).getD noUser
  { id := m.pk.getD 0,
    chatRoomId := m.chatRoom,
    sender := { id := sender.id, email := sender.email,
                username := if sender.username = "" then sender.email else sender.username,
                fullName := sender.fullName },
    content := m.content,
    messageType := m.messageType,
    replyTo :=
      match m.replyTo.bind (fun rid => st.msgs.find? (fun r => r.pk == some rid)) with
      | none => none
      | some tgt =>
        some { id := tgt.pk.getD 0,
               content := tgt.content.take 100,
               senderEmail := ((st.users.find? (fun u => u.id == tgt.sender)).getD noUser).email },
    isEdited := m.isEdited,
    createdAt := m.createdAt,
    updatedAt := m.updatedAt }

/-- Embedding of `save_message`: fetch the room for the trip, resolve
`reply_to` constrained to that room (a miss is only logged and the reply
link is dropped), then `ChatMessage.objects.create`.  A `ValidationError`
or any other exception yields `None`. -/
def save_message (c : Conn) (st : Store) (freshId now : Nat)
    (content : String) (replyToId : Option Nat) (messageType : String) :
    Option (Store × ChatMsg) :=
  if st.rooms.contains c.tripId then
    let replyTo : Option Nat :=
      match replyToId with
      | none => none
      | some rid =>
        match st.msgs.find? (fun r => r.pk == some rid && r.chatRoom == c.tripId) with
        | some tgt => tgt.pk
        | none => none
    match ChatMessage_objects_create st.msgs freshId now c.tripId c.userId
        content messageType replyTo with
    | .ok (db, m) => some ({ st with msgs := db }, m)
    | .error _ => none
  else none

/-- Embedding of `update_message`: fetch the message constrained to
`(id, chat_room__trip_id, sender == self.user)`; on a miss return `None`;
on a hit assign the new content and save (any exception also yields
`None`). -/
def update_message (c : Conn) (st : Store) (now : Nat)
    (messageId : Nat) (newContent : String) : Option (Store × ChatMsg) :=
  match st.msgs.find? (fun r =>
      r.pk == some messageId && r.chatRoom == c.tripId && r.sender == c.userId) with
  | none => none
  | some m =>
    match ChatMessage_save st.msgs { m with content := newContent } now with
    | .ok (db, m) => some ({ st with msgs := db }, m)
    | .error _ => none

/-- Comparison key of the query `order_by('-created_at')`: descending
`created_at` and nothing else. -/
def byCreatedDesc (a b : ChatMsg) : Prop := b.createdAt ≤ a.createdAt

instance : DecidableRel byCreatedDesc := fun a b => Nat.decLe b.createdAt a.createdAt

instance : IsTotal ChatMsg byCreatedDesc := ⟨fun a b => Nat.le_total b.createdAt a.createdAt⟩

instance : IsTrans ChatMsg byCreatedDesc := ⟨fun _ _ _ h h2 => Nat.le_trans h2 h⟩

/-- Embedding of `order_by('-created_at')` over a row list: a stable sort
on the single key, so rows with equal `created_at` keep storage order. -/
def orderByCreatedDesc (l : List ChatMsg) : List ChatMsg :=
  l.insertionSort byCreatedDesc

/-- Embedding of `get_recent_messages(limit=50)`: rows of the room ordered
by `-created_at`, truncated to `limit`, then reversed into chronological
order; any exception (e.g. the room does not exist) yields `[]`. -/
def get_recent_messages (c : Conn) (st : Store) (limit : Nat) : List ChatMsg :=
  if st.rooms.contains c.tripId then
    ((orderByCreatedDesc (st.msgs.filter (fun m => m.chatRoom == c.tripId))).take limit).reverse
  else []

/-- Embedding of `send_recent_messages`: serialize the recent messages and
send one `message_history` frame. -/
def send_recent_messages (c : Conn) (st : Store) : OutFrame :=
  .messageHistory ((get_recent_messages c st 50).map (serialize_message st))

/-- Embedding of `check_trip_access`:
`Collaborator.objects.filter(trip_id, user).exists()`. -/
def check_trip_access (st : Store) (tripId userId : Nat) : Bool :=
  st.collaborators.contains (tripId, userId)

/-- Embedding of `ensure_chat_room`: `get_or_create` of the room keyed by
the trip; when the trip does not exist the error is only logged. -/
def ensure_chat_room (st : Store) (tripId : Nat) : Store :=
  if st.trips.contains tripId then
    if st.rooms.contains tripId then st
    else { st with rooms := st.rooms ++ [tripId] }
  else st

/-- Result of a connection attempt: the store afterwards, the close code if
the handshake was rejected, whether `accept` ran, and the frames sent. -/
structure ConnectOutcome where
  store : Store
  closeCode : Option Nat
  accepted : Bool
  sent : List OutFrame
deriving DecidableEq, Repr

/-- Embedding of `ChatConsumer.connect`: reject an anonymous scope user
with close code 4001 and a non-collaborator with 4003, both before
`accept` (so zero frames are sent); on success ensure the room, join the
group, accept, and send the recent history. -/
def ChatConsumer_connect (st : Store) (tripId : Nat)
    (scopeUser : Option ChatUser) (chan : String) : ConnectOutcome :=
  match scopeUser with
  | none => { store := st, closeCode := some 4001, accepted := false, sent := [] }
  | some u =>
    if !check_trip_access st tripId u.id then
      { store := st, closeCode := some 4003, accepted := false, sent := [] }
    else
      let st := ensure_chat_room st tripId
      let c : Conn := { tripId := tripId, userId := u.id, userEmail := u.email,
                        channelName := chan }
      { store := st, closeCode := none, accepted := true,
        sent := [send_recent_messages c st] }

/-- Decoded JSON payload of an inbound frame: each key the handlers read,
absent when the client did not send it. -/
structure JsonData where
  type : Option String := none
  content : Option String := none
  replyTo : Option Nat := none
  messageType : Option String := none
  messageId : Option Nat := none
  isTyping : Option Bool := none
deriving DecidableEq, Repr

/-- Inbound WebSocket text frame: either text that fails `json.loads`, or
a decoded JSON object. -/
inductive RawFrame where
  | malformed
  | json (data : JsonData)
deriving DecidableEq, Repr

/-- Embedding of `handle_chat_message`: strip the content, reject empty or
over-10000-character content with an error frame, save, and on success
publish a `chat_message` event with the serialized message. -/
def handle_chat_message (c : Conn) (st : Store) (freshId now : Nat)
    (data : JsonData) : Store × List GwAction :=
  let content := pyStrip (data.content.getD "")
  if content = "" then
    (st, [.send (.error "Message content cannot be empty")])
  else if content.length > 10000 then
    (st, [.send (.error "Message is too long (max 10000 characters)")])
  else
    match save_message c st freshId now content data.replyTo
        (data.messageType.getD "text") with
    | none => (st, [.send (.error "Failed to save message")])
    | some (st, m) =>
      (st, [.publish (.chatMessage (serialize_message st m))])

/-- Embedding of `handle_edit_message`: require a message id and non-empty
stripped content, update through `update_message`, answer a miss with one
generic error, and on success publish a `message_edited` event. -/
def handle_edit_message (c : Conn) (st : Store) (now : Nat)
    (data : JsonData) : Store × List GwAction :=
  match data.messageId with
  | none => (st, [.send (.error "message_id is required")])
  | some mid =>
    let newContent := pyStrip (data.content.getD "")
    if newContent = "" then
      (st, [.send (.error "Message content cannot be empty")])
    else
      match update_message c st now mid newContent with
      | none =>
        (st, [.send (.error "Message not found or you do not have permission to edit it")])
      | some (st, m) =>
        (st, [.publish (.messageEdited (serialize_message st m))])

/-- Embedding of `handle_typing`: publish a `typing_indicator` event
carrying the originating user's id and email (`is_typing` defaults to
false). -/
def handle_typing (c : Conn) (data : JsonData) : Store → Store × List GwAction :=
  fun st =>
    (st, [.publish (.typingIndicator c.userId c.userEmail (data.isTyping.getD false))])

/-- Embedding of `ChatConsumer.receive`: decode the JSON, dispatch on the
`type` key over the closed set {chat_message, edit_message, typing},
answer an unknown type or malformed JSON with an error frame (exceptions
are caught, so the connection is never closed here). -/
def ChatConsumer_receive (c : Conn) (st : Store) (freshId now : Nat)
    (raw : RawFrame) : Store × List GwAction :=
  match raw with
  | .malformed => (st, [.send (.error "Invalid JSON format")])
  | .json data =>
    match data.type with
    | some "chat_message" => handle_chat_message c st freshId now data
    | some "edit_message" => handle_edit_message c st now data
    | some "typing" => handle_typing c data st
    | _ => (st, [.send (.error "Unknown message type")])

/-- Embedding of the delivery-side handlers (`chat_message`,
`message_edited`, `typing_indicator`), run on each group member when an
event arrives: the frame that member forwards to its own client, or
nothing.  `typing_indicator` suppresses the frame when the event's
`user_id` equals the receiving connection's own user id. -/
def deliver_event (c : Conn) (e : Event) : Option OutFrame :=
  match e with
  | .chatMessage m => some (.chatMessage m)
  | .messageEdited m => some (.messageEdited m)
  | .typingIndicator uid email t =>
    if uid != c.userId then some (.typing uid email t) else none

/-- Token extraction of `JWTAuthMiddleware.__call__`: the `token` query
parameter wins; a missing or falsy one falls back to the `Authorization`
header when it starts with `Bearer `. -/
def extract_token (queryToken : Option String) (authHeader : Option String) :
    Option String :=
  let token :=
    match queryToken with
    | some t => if t = "" then none else some t
    | none => none
  match token with
  | some t => some t
  | none =>
    match authHeader with
    | some h =>
      if h.startsWith "Bearer " then some ((h.splitOn " ").getD 1 "")
      else none
    | none => none

/-- Scope user installed by `JWTAuthMiddleware`: the validated token's
user, else `AnonymousUser` (modelled as `none`); `validate` is the
external token validator (`get_user_from_token`). -/
def scope_user (queryToken : Option String) (authHeader : Option String)
    (validate : String → Option ChatUser) : Option ChatUser :=
  (extract_token queryToken authHeader).bind validate

/-! ### Concrete objects used by the witnesses -/

/-- Sample user. -/
def wUser : ChatUser := { id := 7, email := "a@x.com", username := "", fullName := "A X" }

/-- Sample connection of `wUser` to the room of trip 1. -/
def wConn : Conn := { tripId := 1, userId := 7, userEmail := "a@x.com", channelName := "ch-1" }

/-- Sample stored message of `wUser` in room 1. -/
def wMsg : ChatMsg :=
  { pk := some 3, chatRoom := 1, sender := 7, content := "hello",
    messageType := "text", replyTo := none, isEdited := true,
    createdAt := 4, updatedAt := 4 }

/-- Sample store: trip 1 with its room, `wUser` as collaborator, one
message. -/
def wStore : Store :=
  { trips := [1], collaborators := [(1, 7)], rooms := [1],
    msgs := [wMsg], users := [wUser] }

/-- Sample message living in a different room (room 2). -/
def wOtherRoomMsg : ChatMsg :=
  { pk := some 3, chatRoom := 2, sender := 7, content := "elsewhere",
    messageType := "text", replyTo := none, isEdited := true,
    createdAt := 4, updatedAt := 4 }

/-- Sample `chat_message` frame replying to an absent message id. -/
def wChatData : JsonData :=
  { type := some "chat_message", content := some " hi there ", replyTo := some 99 }

/-- Sample `edit_message` frame for an absent message id. -/
def wEditData : JsonData :=
  { type := some "edit_message", content := some "new text", messageId := some 42 }

/-- A 10001-character content string. -/
def wLongContent : String := String.mk (List.replicate 10001 'a')

/-- Sample `edit_message` frame carrying over-10000-character content for
the stored message `wMsg`. -/
def wLongData : JsonData :=
  { type := some "edit_message", content := some wLongContent, messageId := some 3 }

/-! ### Helper lemmas -/

/-- Stripping is idempotent. -/
theorem pyStrip_idem (s : String) : pyStrip (pyStrip s) = pyStrip s := by
  show String.mk (((((s.data.dropWhile Char.isWhitespace).rdropWhile Char.isWhitespace)).dropWhile Char.isWhitespace).rdropWhile Char.isWhitespace) = _
  have hbd : (((s.data.dropWhile Char.isWhitespace).rdropWhile Char.isWhitespace)).dropWhile Char.isWhitespace
      = (s.data.dropWhile Char.isWhitespace).rdropWhile Char.isWhitespace := by
    rw [List.dropWhile_eq_self_iff]
    intro hl
    have hpre : (s.data.dropWhile Char.isWhitespace).rdropWhile Char.isWhitespace <+: s.data.dropWhile Char.isWhitespace :=
      List.rdropWhile_prefix _ _
    have hlen : 0 < (s.data.dropWhile Char.isWhitespace).length :=
      Nat.lt_of_lt_of_le hl hpre.length_le
    have hnot := List.dropWhile_get_zero_not (p := Char.isWhitespace) s.data hlen
    have hget := hpre.getElem hl
    simp only [List.get_eq_getElem] at hnot ⊢
    rw [hget]
    exact hnot
  rw [hbd, List.rdropWhile_idempotent]
  rfl

/-- Stripping a string with no whitespace anywhere leaves it unchanged. -/
theorem pyStrip_no_whitespace (s : String)
    (h : ∀ ch ∈ s.data, Char.isWhitespace ch = false) : pyStrip s = s := by
  unfold pyStrip
  have h1 : s.data.dropWhile Char.isWhitespace = s.data :=
    List.dropWhile_eq_self_iff.mpr (fun hl => by
      simp only [Bool.not_eq_true]
      exact h _ (List.get_mem _ _ _))
  have h2 : s.data.rdropWhile Char.isWhitespace = s.data :=
    List.rdropWhile_eq_self_iff.mpr (fun hl => by
      simp only [Bool.not_eq_true]
      exact h _ (List.getLast_mem hl))
  rw [h1, h2]

/-- The content of `wLongContent` strips to itself. -/
theorem pyStrip_wLongContent : pyStrip wLongContent = wLongContent :=
  pyStrip_no_whitespace _ (fun ch hch => by rw [List.eq_of_mem_replicate hch]; rfl)

/-- `wLongContent` has 10001 characters after stripping. -/
theorem pyStrip_wLongContent_length : (pyStrip wLongContent).length = 10001 := by
  rw [pyStrip_wLongContent]
  show (List.replicate 10001 'a').length = 10001
  exact List.length_replicate _ _

/-- `clean` ignores the `is_edited` flag. -/
theorem ChatMessage_clean_isEdited (db : List ChatMsg) (m : ChatMsg) (b : Bool) :
    ChatMessage_clean db { m with isEdited := b } = ChatMessage_clean db m := rfl

/-- Sufficient conditions for `clean` to pass. -/
theorem ChatMessage_clean_ok (db : List ChatMsg) (m : ChatMsg)
    (hc : pyStrip m.content ≠ "")
    (hrep : ∀ rid tgt, m.replyTo = some rid →
      db.find? (fun r => r.pk == some rid) = some tgt → tgt.chatRoom = m.chatRoom) :
    ChatMessage_clean db m = .ok () := by
  unfold ChatMessage_clean
  rw [if_neg hc]
  cases hm : m.replyTo with
  | none => rfl
  | some rid =>
    cases hf : db.find? (fun r => r.pk == some rid) with
    | none => simp [hf]
    | some tgt => simp [hf, hrep rid tgt hm hf]

/-- Field validation passes when the content is not blank and the message
type is one of the declared choices (all of which fit in 20 characters). -/
theorem ChatMessage_clean_fields_ok (m : ChatMsg)
    (hblank : m.content ≠ "")
    (hty : MESSAGE_TYPE_CHOICES.contains m.messageType = true) :
    ChatMessage_clean_fields m = .ok () := by
  have hmem : m.messageType = "text" ∨ m.messageType = "system" ∨ m.messageType = "file" := by
    simpa [MESSAGE_TYPE_CHOICES] using hty
  have hlen : ¬ m.messageType.length > 20 := by
    rcases hmem with h | h | h <;> rw [h] <;> decide
  unfold ChatMessage_clean_fields
  rw [if_neg hblank, if_neg (by rw [hty]; simp), if_neg hlen]

/-- Sufficient conditions for `full_clean` to pass. -/
theorem ChatMessage_full_clean_ok (db : List ChatMsg) (m : ChatMsg)
    (hc : pyStrip m.content ≠ "")
    (hty : MESSAGE_TYPE_CHOICES.contains m.messageType = true)
    (hrep : ∀ rid tgt, m.replyTo = some rid →
      db.find? (fun r => r.pk == some rid) = some tgt → tgt.chatRoom = m.chatRoom) :
    ChatMessage_full_clean db m = .ok () := by
  have hblank : m.content ≠ "" := by
    intro h
    apply hc
    rw [h]
    rfl
  unfold ChatMessage_full_clean
  rw [ChatMessage_clean_fields_ok m hblank hty]
  exact ChatMessage_clean_ok db m hc hrep

/-- A passing `full_clean` in particular means a passing `clean`. -/
theorem ChatMessage_full_clean_implies_clean (db : List ChatMsg) (m : ChatMsg)
    (h : ChatMessage_full_clean db m = .ok ()) : ChatMessage_clean db m = .ok () := by
  unfold ChatMessage_full_clean at h
  cases hcf : ChatMessage_clean_fields m with
  | error e => rw [hcf] at h; exact absurd h (by simp)
  | ok u => rw [hcf] at h; exact h

/-- `clean` rejects empty-after-strip content. -/
theorem ChatMessage_clean_empty (db : List ChatMsg) (m : ChatMsg)
    (hc : pyStrip m.content = "") :
    ChatMessage_clean db m = .error "Message content cannot be empty." := by
  unfold ChatMessage_clean; rw [if_pos hc]

/-- `clean` rejects a reply whose target lives in a different room. -/
theorem ChatMessage_clean_cross_room (db : List ChatMsg) (m : ChatMsg) (rid : Nat) (tgt : ChatMsg)
    (hc : pyStrip m.content ≠ "")
    (hrep : m.replyTo = some rid)
    (hfind : db.find? (fun r => r.pk == some rid) = some tgt)
    (hroom : tgt.chatRoom ≠ m.chatRoom) :
    ChatMessage_clean db m = .error "Reply must be to a message in the same chat room." := by
  unfold ChatMessage_clean
  rw [if_neg hc, hrep]
  simp [hfind, hroom]

/-- `save` propagates a `clean` failure. -/
theorem ChatMessage_save_clean_error (db : List ChatMsg) (m : ChatMsg) (now : Nat) (e : String)
    (hpk : m.pk.isSome = true)
    (hclean : ChatMessage_full_clean db { m with isEdited := true } = .error e) :
    ChatMessage_save db m now = .error e := by
  simp only [ChatMessage_save, hpk, if_true, hclean]

/-- `save` of a row whose pk is not yet in the table inserts it at the
end, with `created_at` and `updated_at` set to now and `is_edited` forced
true by the pk check. -/
theorem ChatMessage_save_insert (db : List ChatMsg) (m : ChatMsg) (now : Nat)
    (hpk : m.pk.isSome = true)
    (hclean : ChatMessage_full_clean db { m with isEdited := true } = .ok ())
    (hnew : db.any (fun r => r.pk == m.pk) = false) :
    ChatMessage_save db m now =
      .ok (db ++ [{ m with isEdited := true, createdAt := now, updatedAt := now }],
           { m with isEdited := true, createdAt := now, updatedAt := now }) := by
  simp only [ChatMessage_save, hpk, if_true, hclean, hnew]
  rfl

/-- `save` of a row whose pk is already in the table replaces that row,
keeping `created_at` and bumping `updated_at`. -/
theorem ChatMessage_save_update (db : List ChatMsg) (m : ChatMsg) (now : Nat)
    (hpk : m.pk.isSome = true)
    (hclean : ChatMessage_full_clean db { m with isEdited := true } = .ok ())
    (hex : db.any (fun r => r.pk == m.pk) = true) :
    ChatMessage_save db m now =
      .ok (db.map (fun r => if r.pk == m.pk then { m with isEdited := true, updatedAt := now } else r),
           { m with isEdited := true, updatedAt := now }) := by
  simp only [ChatMessage_save, hpk, if_true, hclean, hex]

/-- Facts extracted from a successful owner-constrained fetch. -/
theorem find?_update_pred (st : Store) (c : Conn) (mid : Nat) (m : ChatMsg)
    (hfind : st.msgs.find? (fun r =>
        r.pk == some mid && r.chatRoom == c.tripId && r.sender == c.userId) = some m) :
    m.pk = some mid ∧ m.chatRoom = c.tripId ∧ m.sender = c.userId ∧ m ∈ st.msgs := by
  have hp := List.find?_some hfind
  have hm := List.mem_of_find?_eq_some hfind
  simp only [Bool.and_eq_true, beq_iff_eq] at hp
  exact ⟨hp.1.1, hp.1.2, hp.2, hm⟩

/-- `update_message` on a matching row replaces it with the edited row. -/
theorem update_message_found
    (c : Conn) (st : Store) (now mid : Nat) (nc : String) (m : ChatMsg)
    (hfind : st.msgs.find? (fun r =>
        r.pk == some mid && r.chatRoom == c.tripId && r.sender == c.userId) = some m)
    (hne : pyStrip nc ≠ "")
    (hty : MESSAGE_TYPE_CHOICES.contains m.messageType = true)
    (hrep : ∀ rid tgt, m.replyTo = some rid →
      st.msgs.find? (fun r => r.pk == some rid) = some tgt → tgt.chatRoom = m.chatRoom) :
    update_message c st now mid nc =
      some ({ st with msgs := st.msgs.map (fun r =>
                if r.pk == m.pk then { m with content := nc, isEdited := true, updatedAt := now } else r) },
            { m with content := nc, isEdited := true, updatedAt := now }) := by
  obtain ⟨hpk, hcr, hsn, hmem⟩ := find?_update_pred st c mid m hfind
  have hclean : ChatMessage_full_clean st.msgs
      { m with content := nc, isEdited := true } = .ok () := by
    apply ChatMessage_full_clean_ok
    · exact hne
    · exact hty
    · intro rid tgt h hf
      exact hrep rid tgt h hf
  have hex : st.msgs.any (fun r => r.pk == m.pk) = true := by
    rw [List.any_eq_true]
    exact ⟨m, hmem, by simp⟩
  unfold update_message
  rw [hfind]
  dsimp only
  rw [ChatMessage_save_update st.msgs { m with content := nc } now
    (by rw [show ({ m with content := nc } : ChatMsg).pk = m.pk from rfl, hpk]; rfl)
    hclean hex]

/-- The recent list never exceeds the requested limit. -/
theorem get_recent_messages_length_le (c : Conn) (st : Store) (limit : Nat) :
    (get_recent_messages c st limit).length ≤ limit := by
  unfold get_recent_messages
  split
  · rw [List.length_reverse]
    exact List.length_take_le _ _
  · simp

/-- The recent list is ascending in `created_at`. -/
theorem get_recent_messages_ascending (c : Conn) (st : Store) (limit : Nat) :
    List.Pairwise (fun a b : ChatMsg => a.createdAt ≤ b.createdAt)
      (get_recent_messages c st limit) := by
  unfold get_recent_messages
  split
  · rw [List.pairwise_reverse]
    have hs : List.Sorted byCreatedDesc
        (orderByCreatedDesc (st.msgs.filter (fun m => m.chatRoom == c.tripId))) :=
      List.sorted_insertionSort byCreatedDesc _
    exact List.Pairwise.sublist (List.take_sublist _ _) hs
  · exact List.Pairwise.nil

/-! ### Claims -/

/-- C1: the claim says a valid creation persists the message with
`is_edited = false`.  Evaluating the embedded create at a concrete valid
input shows the persisted message instead has `is_edited = true`: the save
override's `if self.pk` test is meant to detect updates, but the uuid pk
default is assigned at instantiation, so it is already true at creation.
Content equals the (already stripped) input and timestamps are set. -/
theorem create_on_fresh_store_marks_message_edited :
    ChatMessage_objects_create [] 100 5 1 7 "hi" "text" none =
      .ok ([{ pk := some 100, chatRoom := 1, sender := 7, content := "hi",
              messageType := "text", replyTo := none, isEdited := true,
              createdAt := 5, updatedAt := 5 }],
           { pk := some 100, chatRoom := 1, sender := 7, content := "hi",
             messageType := "text", replyTo := none, isEdited := true,
             createdAt := 5, updatedAt := 5 }) := rfl

/-- C2 counterexample: a typing event published by one connection of user 7
is suppressed on delivery to a distinct connection (different channel name)
of the same user 7, though the claim says every connection other than the
originator — in particular another device of the same user — receives the
typing frame. -/
theorem typing_not_delivered_to_same_user_other_connection :
    (handle_typing { tripId := 1, userId := 7, userEmail := "a@x.com", channelName := "chan-A" }
        { type := some "typing", isTyping := some true }
        { trips := [1], collaborators := [(1, 7)], rooms := [1], msgs := [], users := [] }).2
      = [.publish (.typingIndicator 7 "a@x.com" true)]
    ∧ ({ tripId := 1, userId := 7, userEmail := "a@x.com", channelName := "chan-B" } : Conn)
        ≠ { tripId := 1, userId := 7, userEmail := "a@x.com", channelName := "chan-A" }
    ∧ deliver_event { tripId := 1, userId := 7, userEmail := "a@x.com", channelName := "chan-B" }
        (.typingIndicator 7 "a@x.com" true) = none :=
  ⟨rfl, by decide, rfl⟩

/-- C2 amended: a typing event is delivered to exactly those subscribed
connections whose user id differs from the originator's; every connection
of the originating user — the originating connection itself and the same
user's other devices/sessions — has it suppressed at delivery. -/
theorem typing_suppressed_for_connections_of_originating_user
    (c r : Conn) (st : Store) (d : JsonData) :
    (handle_typing c d st).1 = st ∧
    (handle_typing c d st).2
      = [.publish (.typingIndicator c.userId c.userEmail (d.isTyping.getD false))] ∧
    deliver_event r (.typingIndicator c.userId c.userEmail (d.isTyping.getD false)) =
      (if r.userId = c.userId then none
       else some (.typing c.userId c.userEmail (d.isTyping.getD false))) := by
  refine ⟨rfl, rfl, ?_⟩
  unfold deliver_event
  by_cases h : r.userId = c.userId
  · simp [h]
  · simp [bne, Ne.symm h, h]

/-- C3: the Message Store create fails with a ValidationError (the result
is an error, so no row is returned or inserted) whenever the given
`reply_to` resolves to a message of a different room. -/
theorem create_rejects_cross_room_reply
    (db : List ChatMsg) (freshId now room sender rid : Nat)
    (content mtype : String) (tgt : ChatMsg)
    (hfind : db.find? (fun r => r.pk == some rid) = some tgt)
    (hroom : tgt.chatRoom ≠ room) :
    ∃ e, ChatMessage_objects_create db freshId now room sender content mtype (some rid)
      = .error e := by
  unfold ChatMessage_objects_create
  cases hfc : ChatMessage_full_clean db
      { pk := some freshId, chatRoom := room, sender := sender, content := content,
        messageType := mtype, replyTo := some rid, isEdited := true,
        createdAt := 0, updatedAt := 0 } with
  | error e => exact ⟨e, ChatMessage_save_clean_error _ _ _ _ rfl hfc⟩
  | ok u =>
    exfalso
    cases u
    have hcl := ChatMessage_full_clean_implies_clean _ _ hfc
    by_cases hc : pyStrip content = ""
    · rw [ChatMessage_clean_empty _ _ hc] at hcl
      exact absurd hcl (by simp)
    · rw [ChatMessage_clean_cross_room _ _ rid tgt hc rfl hfind hroom] at hcl
      exact absurd hcl (by simp)

/-- C3 witness: creating a message in room 1 that replies to a message of
room 2 fails. -/
theorem create_rejects_cross_room_reply_witness :
    [wOtherRoomMsg].find? (fun r => r.pk == some 3) = some wOtherRoomMsg
    ∧ wOtherRoomMsg.chatRoom ≠ 1
    ∧ ∃ e, ChatMessage_objects_create [wOtherRoomMsg] 9 5 1 7 "hi" "text" (some 3)
        = .error e :=
  ⟨by decide, by decide,
   create_rejects_cross_room_reply [wOtherRoomMsg] 9 5 1 7 3 "hi" "text" wOtherRoomMsg
     (by decide) (by decide)⟩

/-- C4: a `chat_message` frame whose `reply_to` has no match in this room
(absent or foreign) is still persisted and broadcast, with no reply link
and no error frame; the dangling reply itself never fails the send (the
frame's `message_type` must be a declared choice, otherwise the save fails
for that separate cause). -/
theorem chat_message_with_dangling_reply_saved_without_link
    (c : Conn) (st : Store) (freshId now rid : Nat) (d : JsonData)
    (hroom : st.rooms.contains c.tripId = true)
    (hne : pyStrip (d.content.getD "") ≠ "")
    (hlen : ¬ (pyStrip (d.content.getD "")).length > 10000)
    (hty : MESSAGE_TYPE_CHOICES.contains (d.messageType.getD "text") = true)
    (hrep : d.replyTo = some rid)
    (hmiss : st.msgs.find? (fun r => r.pk == some rid && r.chatRoom == c.tripId) = none)
    (hfresh : st.msgs.any (fun r => r.pk == some freshId) = false) :
    ∃ st' m,
      handle_chat_message c st freshId now d
        = (st', [.publish (.chatMessage (serialize_message st' m))])
      ∧ st'.msgs = st.msgs ++ [m]
      ∧ m.replyTo = none
      ∧ m.content = pyStrip (d.content.getD "") := by
  have hclean : ChatMessage_full_clean st.msgs
      { pk := some freshId, chatRoom := c.tripId, sender := c.userId,
        content := pyStrip (d.content.getD ""), messageType := d.messageType.getD "text",
        replyTo := none, isEdited := true, createdAt := 0, updatedAt := 0 } = .ok () := by
    apply ChatMessage_full_clean_ok
    · show pyStrip (pyStrip (d.content.getD "")) ≠ ""
      rw [pyStrip_idem]; exact hne
    · exact hty
    · intro rid tgt h
      exact absurd h (by simp)
  have hsave : save_message c st freshId now (pyStrip (d.content.getD "")) d.replyTo
      (d.messageType.getD "text")
      = some ({ st with msgs := st.msgs ++
          [{ pk := some freshId, chatRoom := c.tripId, sender := c.userId,
             content := pyStrip (d.content.getD ""), messageType := d.messageType.getD "text",
             replyTo := none, isEdited := true, createdAt := now, updatedAt := now }] },
          { pk := some freshId, chatRoom := c.tripId, sender := c.userId,
            content := pyStrip (d.content.getD ""), messageType := d.messageType.getD "text",
            replyTo := none, isEdited := true, createdAt := now, updatedAt := now }) := by
    unfold save_message
    simp only [hroom, if_true, hrep, hmiss]
    unfold ChatMessage_objects_create
    rw [ChatMessage_save_insert st.msgs
      { pk := some freshId, chatRoom := c.tripId, sender := c.userId,
        content := pyStrip (d.content.getD ""), messageType := d.messageType.getD "text",
        replyTo := none, isEdited := false, createdAt := 0, updatedAt := 0 } now rfl hclean hfresh]
  refine ⟨{ st with msgs := st.msgs ++
      [{ pk := some freshId, chatRoom := c.tripId, sender := c.userId,
         content := pyStrip (d.content.getD ""), messageType := d.messageType.getD "text",
         replyTo := none, isEdited := true, createdAt := now, updatedAt := now }] },
    { pk := some freshId, chatRoom := c.tripId, sender := c.userId,
      content := pyStrip (d.content.getD ""), messageType := d.messageType.getD "text",
      replyTo := none, isEdited := true, createdAt := now, updatedAt := now }, ?_, rfl, rfl, rfl⟩
  simp only [handle_chat_message, if_neg hne, if_neg hlen, hsave]

/-- C4 witness: sending a message replying to absent id 99 saves and
broadcasts it without a reply link. -/
theorem chat_message_with_dangling_reply_saved_without_link_witness :
    wStore.rooms.contains wConn.tripId = true
    ∧ pyStrip (wChatData.content.getD "") ≠ ""
    ∧ ¬ (pyStrip (wChatData.content.getD "")).length > 10000
    ∧ MESSAGE_TYPE_CHOICES.contains (wChatData.messageType.getD "text") = true
    ∧ wChatData.replyTo = some 99
    ∧ wStore.msgs.find? (fun r => r.pk == some 99 && r.chatRoom == wConn.tripId) = none
    ∧ wStore.msgs.any (fun r => r.pk == some 5) = false
    ∧ ∃ st' m,
        handle_chat_message wConn wStore 5 6 wChatData
          = (st', [.publish (.chatMessage (serialize_message st' m))])
        ∧ st'.msgs = wStore.msgs ++ [m]
        ∧ m.replyTo = none
        ∧ m.content = pyStrip (wChatData.content.getD "") :=
  ⟨by decide, by decide, by decide, by decide, rfl, by decide, by decide,
   chat_message_with_dangling_reply_saved_without_link wConn wStore 5 6 99 wChatData
     (by decide) (by decide) (by decide) (by decide) rfl (by decide) (by decide)⟩

/-- C5: an `edit_message` whose (id, room, requester-as-sender) matches no
stored row — nonexistent id, other room, or other sender alike — gets the
one generic not-found-or-no-permission error frame, and the store is
unchanged. -/
theorem edit_no_match_yields_generic_error
    (c : Conn) (st : Store) (now mid : Nat) (d : JsonData)
    (hmid : d.messageId = some mid)
    (hne : pyStrip (d.content.getD "") ≠ "")
    (hmiss : st.msgs.find? (fun r =>
        r.pk == some mid && r.chatRoom == c.tripId && r.sender == c.userId) = none) :
    handle_edit_message c st now d =
      (st, [.send (.error "Message not found or you do not have permission to edit it")]) := by
  unfold handle_edit_message
  rw [hmid]
  simp only [if_neg hne]
  unfold update_message
  rw [hmiss]

/-- C5 witness: editing absent message id 42 answers the generic error and
leaves the store unchanged. -/
theorem edit_no_match_yields_generic_error_witness :
    wEditData.messageId = some 42
    ∧ pyStrip (wEditData.content.getD "") ≠ ""
    ∧ wStore.msgs.find? (fun r =>
        r.pk == some 42 && r.chatRoom == wConn.tripId && r.sender == wConn.userId) = none
    ∧ handle_edit_message wConn wStore 9 wEditData =
        (wStore, [.send (.error "Message not found or you do not have permission to edit it")]) :=
  ⟨rfl, by decide, by decide,
   edit_no_match_yields_generic_error wConn wStore 9 42 wEditData rfl (by decide) (by decide)⟩

/-- C6: a successful edit through the owner-constrained fetch stores the
message with `is_edited = true`, the new content, `updated_at` bumped to
the save time, and `created_at` exactly as it was at creation; only that
row changes. -/
theorem owner_edit_sets_flag_bumps_updated_keeps_created
    (c : Conn) (st : Store) (now mid : Nat) (nc : String) (m : ChatMsg)
    (hfind : st.msgs.find? (fun r =>
        r.pk == some mid && r.chatRoom == c.tripId && r.sender == c.userId) = some m)
    (hne : pyStrip nc ≠ "")
    (hty : MESSAGE_TYPE_CHOICES.contains m.messageType = true)
    (hrep : ∀ rid tgt, m.replyTo = some rid →
      st.msgs.find? (fun r => r.pk == some rid) = some tgt → tgt.chatRoom = m.chatRoom) :
    ∃ st' m',
      update_message c st now mid nc = some (st', m')
      ∧ m'.isEdited = true
      ∧ m'.content = nc
      ∧ m'.updatedAt = now
      ∧ m'.createdAt = m.createdAt
      ∧ m'.pk = m.pk
      ∧ st'.msgs = st.msgs.map (fun r => if r.pk == m.pk then m' else r) :=
  ⟨_, _, update_message_found c st now mid nc m hfind hne hty hrep,
    rfl, rfl, rfl, rfl, rfl, rfl⟩

/-- C6 witness: user 7 edits their stored message 3; the row afterwards
has the new content, the edited flag, a bumped `updated_at` and the
original `created_at`. -/
theorem owner_edit_sets_flag_bumps_updated_keeps_created_witness :
    wStore.msgs.find? (fun r =>
        r.pk == some 3 && r.chatRoom == wConn.tripId && r.sender == wConn.userId) = some wMsg
    ∧ pyStrip "updated" ≠ ""
    ∧ MESSAGE_TYPE_CHOICES.contains wMsg.messageType = true
    ∧ ∃ st' m',
        update_message wConn wStore 9 3 "updated" = some (st', m')
        ∧ m'.isEdited = true
        ∧ m'.content = "updated"
        ∧ m'.updatedAt = 9
        ∧ m'.createdAt = wMsg.createdAt
        ∧ m'.pk = wMsg.pk
        ∧ st'.msgs = wStore.msgs.map (fun r => if r.pk == wMsg.pk then m' else r) :=
  ⟨by decide, by decide, by decide,
   owner_edit_sets_flag_bumps_updated_keeps_created wConn wStore 9 3 "updated" wMsg
     (by decide) (by decide) (by decide) (fun rid tgt h _ => absurd h (by simp [wMsg]))⟩

/-- C7: a malformed-JSON frame, an unknown frame kind, a `chat_message`
with empty-after-strip or over-10000-character content, and an
`edit_message` for a nonexistent/foreign message are each answered with a
single error frame; the store is unchanged and the run neither closes the
socket nor publishes anything. -/
theorem bad_frames_answered_with_error_only
    (c : Conn) (st : Store) (freshId now : Nat) (raw : RawFrame)
    (h : raw = .malformed
      ∨ (∃ d, raw = .json d ∧ ∀ s, d.type = some s →
          s ≠ "chat_message" ∧ s ≠ "edit_message" ∧ s ≠ "typing")
      ∨ (∃ d, raw = .json d ∧ d.type = some "chat_message" ∧
          (pyStrip (d.content.getD "") = "" ∨ 10000 < (pyStrip (d.content.getD "")).length))
      ∨ (∃ d mid, raw = .json d ∧ d.type = some "edit_message" ∧ d.messageId = some mid ∧
          st.msgs.find? (fun r =>
            r.pk == some mid && r.chatRoom == c.tripId && r.sender == c.userId) = none)) :
    ∃ e, ChatConsumer_receive c st freshId now raw = (st, [.send (.error e)]) := by
  rcases h with h | ⟨d, hd, hunk⟩ | ⟨d, hd, hty, hbad⟩ | ⟨d, mid, hd, hty, hmid, hmiss⟩
  · exact ⟨"Invalid JSON format", by rw [h]; rfl⟩
  · subst hd
    unfold ChatConsumer_receive
    dsimp only
    cases hdt : d.type with
    | none => exact ⟨"Unknown message type", rfl⟩
    | some s =>
      obtain ⟨h1, h2, h3⟩ := hunk s hdt
      refine ⟨"Unknown message type", ?_⟩
      split
      · rename_i heq
        exact absurd (Option.some.inj heq) h1
      · rename_i heq
        exact absurd (Option.some.inj heq) h2
      · rename_i heq
        exact absurd (Option.some.inj heq) h3
      · rfl
  · subst hd
    unfold ChatConsumer_receive
    dsimp only
    rw [hty]
    rcases hbad with hempty | hover
    · exact ⟨"Message content cannot be empty", by
        simp only [handle_chat_message, if_pos hempty]⟩
    · have hne : pyStrip (d.content.getD "") ≠ "" := by
        intro hc
        rw [hc] at hover
        exact absurd hover (by decide)
      exact ⟨"Message is too long (max 10000 characters)", by
        simp only [handle_chat_message, if_neg hne, if_pos hover]⟩
  · subst hd
    unfold ChatConsumer_receive
    dsimp only
    rw [hty]
    unfold handle_edit_message
    rw [hmid]
    by_cases hc : pyStrip (d.content.getD "") = ""
    · exact ⟨"Message content cannot be empty", by simp only [if_pos hc]⟩
    · refine ⟨"Message not found or you do not have permission to edit it", ?_⟩
      simp only [if_neg hc]
      unfold update_message
      rw [hmiss]

/-- C7 witness: a malformed frame is answered with an error frame and
nothing else. -/
theorem bad_frames_answered_with_error_only_witness :
    ∃ e, ChatConsumer_receive wConn wStore 5 6 .malformed
      = (wStore, [.send (.error e)]) :=
  bad_frames_answered_with_error_only wConn wStore 5 6 .malformed (Or.inl rfl)

/-- C8: an anonymous scope user (missing or invalid credential) is closed
with code 4001 and zero frames; an authenticated non-collaborator is
closed with the distinct code 4003, also with zero frames. -/
theorem handshake_rejections_distinct_codes_no_frames
    (st : Store) (tripId : Nat) (chan : String)
    (qt ah : Option String) (validate : String → Option ChatUser) (u : ChatUser) :
    (scope_user qt ah validate = none →
      ChatConsumer_connect st tripId (scope_user qt ah validate) chan
        = { store := st, closeCode := some 4001, accepted := false, sent := [] }) ∧
    (check_trip_access st tripId u.id = false →
      ChatConsumer_connect st tripId (some u) chan
        = { store := st, closeCode := some 4003, accepted := false, sent := [] }) ∧
    (4001 : Nat) ≠ 4003 := by
  refine ⟨?_, ?_, by decide⟩
  · intro h
    rw [h]
    rfl
  · intro h
    unfold ChatConsumer_connect
    simp [h]

/-- C8 witness: no token at all yields the 4001 close; user 9, not a
collaborator of trip 1, yields the 4003 close; both without frames. -/
theorem handshake_rejections_distinct_codes_no_frames_witness :
    scope_user none none (fun _ => none) = none
    ∧ check_trip_access wStore 1 9 = false
    ∧ ChatConsumer_connect wStore 1 (scope_user none none (fun _ => none)) "ch"
        = { store := wStore, closeCode := some 4001, accepted := false, sent := [] }
    ∧ ChatConsumer_connect wStore 1
        (some { id := 9, email := "x@x.com", username := "", fullName := "" }) "ch"
        = { store := wStore, closeCode := some 4003, accepted := false, sent := [] } :=
  ⟨rfl, by decide,
   (handshake_rejections_distinct_codes_no_frames wStore 1 "ch" none none (fun _ => none)
     { id := 9, email := "x@x.com", username := "", fullName := "" }).1 rfl,
   (handshake_rejections_distinct_codes_no_frames wStore 1 "ch" none none (fun _ => none)
     { id := 9, email := "x@x.com", username := "", fullName := "" }).2.1 (by decide)⟩

/-- C9 counterexample: two messages of the room share `created_at = 5`; the
one with id 2 was inserted after the one with id 1, and the history a
successful connect computes lists id 2 before id 1 — the query sorts on
`created_at` alone, so ties are not broken by id as the claim states. -/
theorem connect_history_ties_not_ordered_by_id :
    (ChatConsumer_connect
        { trips := [1], collaborators := [(1, 7)], rooms := [1],
          msgs := [{ pk := some 1, chatRoom := 1, sender := 7, content := "first",
                     messageType := "text", replyTo := none, isEdited := true,
                     createdAt := 5, updatedAt := 5 },
                   { pk := some 2, chatRoom := 1, sender := 7, content := "second",
                     messageType := "text", replyTo := none, isEdited := true,
                     createdAt := 5, updatedAt := 5 }],
          users := [{ id := 7, email := "a@x.com", username := "", fullName := "A X" }] }
        1 (some { id := 7, email := "a@x.com", username := "", fullName := "A X" }) "ch").accepted
      = true
    ∧ (get_recent_messages { tripId := 1, userId := 7, userEmail := "a@x.com", channelName := "ch" }
        { trips := [1], collaborators := [(1, 7)], rooms := [1],
          msgs := [{ pk := some 1, chatRoom := 1, sender := 7, content := "first",
                     messageType := "text", replyTo := none, isEdited := true,
                     createdAt := 5, updatedAt := 5 },
                   { pk := some 2, chatRoom := 1, sender := 7, content := "second",
                     messageType := "text", replyTo := none, isEdited := true,
                     createdAt := 5, updatedAt := 5 }],
          users := [{ id := 7, email := "a@x.com", username := "", fullName := "A X" }] }
        50).map (fun m => (m.pk, m.createdAt))
      = [(some 2, 5), (some 1, 5)] := by
  constructor
  · rfl
  · decide

/-- C9 amended: every successful connect sends exactly one frame, a
`message_history` holding the serialized recent messages: at most 50 of
them, in ascending `created_at` order; the relative order of messages with
equal `created_at` is the storage order (the query applies no id
tiebreak). -/
theorem connect_sends_one_history_frame_at_most_50_ascending
    (st : Store) (tripId : Nat) (u : ChatUser) (chan : String)
    (hacc : (ChatConsumer_connect st tripId (some u) chan).accepted = true) :
    (ChatConsumer_connect st tripId (some u) chan).sent
      = [.messageHistory
          ((get_recent_messages
              { tripId := tripId, userId := u.id, userEmail := u.email, channelName := chan }
              (ensure_chat_room st tripId) 50).map
            (serialize_message (ensure_chat_room st tripId)))]
    ∧ (get_recent_messages
        { tripId := tripId, userId := u.id, userEmail := u.email, channelName := chan }
        (ensure_chat_room st tripId) 50).length ≤ 50
    ∧ List.Pairwise (fun a b : ChatMsg => a.createdAt ≤ b.createdAt)
        (get_recent_messages
          { tripId := tripId, userId := u.id, userEmail := u.email, channelName := chan }
          (ensure_chat_room st tripId) 50) := by
  refine ⟨?_, get_recent_messages_length_le _ _ _, get_recent_messages_ascending _ _ _⟩
  by_cases hca : check_trip_access st tripId u.id
  · unfold ChatConsumer_connect
    simp only [hca, Bool.not_true, Bool.false_eq_true, if_false]
    rfl
  · exfalso
    unfold ChatConsumer_connect at hacc
    simp only [Bool.not_eq_true] at hca
    simp [hca] at hacc

/-- C9 amended witness: `wUser` connects to the room of trip 1
successfully and the single history frame obeys the bound and order. -/
theorem connect_sends_one_history_frame_at_most_50_ascending_witness :
    (ChatConsumer_connect wStore 1 (some wUser) "ch").accepted = true
    ∧ ((ChatConsumer_connect wStore 1 (some wUser) "ch").sent
        = [.messageHistory
            ((get_recent_messages
                { tripId := 1, userId := wUser.id, userEmail := wUser.email, channelName := "ch" }
                (ensure_chat_room wStore 1) 50).map
              (serialize_message (ensure_chat_room wStore 1)))]
      ∧ (get_recent_messages
          { tripId := 1, userId := wUser.id, userEmail := wUser.email, channelName := "ch" }
          (ensure_chat_room wStore 1) 50).length ≤ 50
      ∧ List.Pairwise (fun a b : ChatMsg => a.createdAt ≤ b.createdAt)
          (get_recent_messages
            { tripId := 1, userId := wUser.id, userEmail := wUser.email, channelName := "ch" }
            (ensure_chat_room wStore 1) 50)) :=
  ⟨rfl, connect_sends_one_history_frame_at_most_50_ascending wStore 1 wUser "ch" rfl⟩

/-- C10: edits have no upper length bound: an `edit_message` from the
sender whose stripped content exceeds 10000 characters still succeeds,
persists the oversized content and broadcasts it, while a `chat_message`
carrying the same content is rejected with the too-long error. -/
theorem edit_has_no_upper_length_bound
    (c : Conn) (st : Store) (freshId now mid : Nat) (d : JsonData) (m : ChatMsg)
    (hmid : d.messageId = some mid)
    (hlen : 10000 < (pyStrip (d.content.getD "")).length)
    (hfind : st.msgs.find? (fun r =>
        r.pk == some mid && r.chatRoom == c.tripId && r.sender == c.userId) = some m)
    (hty : MESSAGE_TYPE_CHOICES.contains m.messageType = true)
    (hrep : ∀ rid tgt, m.replyTo = some rid →
      st.msgs.find? (fun r => r.pk == some rid) = some tgt → tgt.chatRoom = m.chatRoom) :
    (∃ st' m', handle_edit_message c st now d
        = (st', [.publish (.messageEdited (serialize_message st' m'))])
      ∧ m'.content = pyStrip (d.content.getD "")
      ∧ m' ∈ st'.msgs)
    ∧ handle_chat_message c st freshId now d
        = (st, [.send (.error "Message is too long (max 10000 characters)")]) := by
  have hne : pyStrip (d.content.getD "") ≠ "" := by
    intro hc
    rw [hc] at hlen
    exact absurd hlen (by decide)
  constructor
  · have hne2 : pyStrip (pyStrip (d.content.getD "")) ≠ "" := by
      rw [pyStrip_idem]; exact hne
    have hupd := update_message_found c st now mid (pyStrip (d.content.getD "")) m hfind hne2 hty hrep
    refine ⟨{ st with msgs := st.msgs.map (fun r =>
        if r.pk == m.pk then { m with content := pyStrip (d.content.getD ""), isEdited := true, updatedAt := now } else r) },
      { m with content := pyStrip (d.content.getD ""), isEdited := true, updatedAt := now }, ?_, rfl, ?_⟩
    · unfold handle_edit_message
      rw [hmid]
      simp only [if_neg hne, hupd]
    · obtain ⟨hpk, hcr, hsn, hmem⟩ := find?_update_pred st c mid m hfind
      simp only [List.mem_map]
      exact ⟨m, hmem, by simp⟩
  · simp only [handle_chat_message, if_neg hne, if_pos hlen]

/-- C10 witness: user 7 edits their message 3 to a 10001-character content;
the edit succeeds and is broadcast, while sending the same content as a
new message is rejected as too long. -/
theorem edit_has_no_upper_length_bound_witness :
    wLongData.messageId = some 3
    ∧ 10000 < (pyStrip (wLongData.content.getD "")).length
    ∧ wStore.msgs.find? (fun r =>
        r.pk == some 3 && r.chatRoom == wConn.tripId && r.sender == wConn.userId) = some wMsg
    ∧ MESSAGE_TYPE_CHOICES.contains wMsg.messageType = true
    ∧ ((∃ st' m', handle_edit_message wConn wStore 9 wLongData
          = (st', [.publish (.messageEdited (serialize_message st' m'))])
        ∧ m'.content = pyStrip (wLongData.content.getD "")
        ∧ m' ∈ st'.msgs)
      ∧ handle_chat_message wConn wStore 5 9 wLongData
          = (wStore, [.send (.error "Message is too long (max 10000 characters)")])) :=
  ⟨rfl,
   by show 10000 < (pyStrip wLongContent).length
      rw [pyStrip_wLongContent_length]; decide,
   by decide, by decide,
   edit_has_no_upper_length_bound wConn wStore 5 9 3 wLongData wMsg rfl
     (by show 10000 < (pyStrip wLongContent).length
         rw [pyStrip_wLongContent_length]; decide)
     (by decide) (by decide)
     (fun rid tgt h _ => absurd h (by simp [wMsg]))⟩
